import Mathlib

/-!
Verification development for the practo-scraper repository.

The Python sources are shallowly embedded as executable Lean definitions:
  * `src/config.py`        — column lists and the generated ON CONFLICT clause;
  * `src/utils/http.py`    — the `make_request` retry loop over HTTP statuses;
  * `src/main.py`          — page-count arithmetic and the page-URL rewrite;
  * `src/parser/doctor.py` and `src/parser/establishment.py`
                           — `clean_numeric`, the name split, and the two
                             relation extractors;
  * `src/db/insert_db.py`  — `insert_main_data` and `insert_relation_data`,
                             with the database modelled as an explicit state
                             and per-statement success oracles.

Python string primitives (`str.split`, `str.strip`, `str.replace`,
`str.isdigit`, `int`, `float`) are re-implemented on `List Char` with
structural recursion so that every definition evaluates inside the kernel.
-/

namespace Practo

/-! ## Python string primitives -/

/-- Python `str.split(sep)` for a single-character separator: every occurrence
of `sep` separates two (possibly empty) fields, and the empty string yields
`[[]]` — exactly CPython's semantics for a non-empty separator. -/
def pySplitChar (sep : Char) : List Char → List (List Char)
  | [] => [[]]
  | c :: cs =>
    let r := pySplitChar sep cs
    if c == sep then [] :: r
    else
      match r with
      | [] => [[c]]
      | h :: t => (c :: h) :: t

/-- `s.split(sep)` on strings (single-character separator). -/
def pySplit (s : String) (sep : Char) : List String :=
  (pySplitChar sep s.data).map (fun l => String.mk l)

/-- The characters Python `str.strip()` removes. -/
def pyIsSpace (c : Char) : Bool :=
  c == ' ' || c == '\t' || c == '\n' || c == '\r' || c == '\x0b' || c == '\x0c'

/-- Python `str.strip()`: whitespace removed from both ends. -/
def pyStrip (s : String) : String :=
  String.mk (((s.data.dropWhile pyIsSpace).reverse.dropWhile pyIsSpace).reverse)

/-- Python `" ".join(l)`. -/
def pyJoin (sep : String) (l : List String) : String :=
  String.intercalate sep l

/-- One pass of Python `str.replace`: scan left to right, replacing every
non-overlapping occurrence of `pat`.  The fuel argument only bounds the
recursion (each step consumes at least one character, so `l.length` is always
enough); the empty-pattern case, never exercised by the scraper (the pattern
is always the literal `"page=1"`), is modelled as the identity. -/
def pyReplaceAux (pat rep : List Char) : Nat → List Char → List Char
  | _, [] => []
  | 0, l => l
  | fuel + 1, c :: cs =>
    if pat.isPrefixOf (c :: cs) && !pat.isEmpty then
      rep ++ pyReplaceAux pat rep fuel (List.drop (pat.length - 1) cs)
    else
      c :: pyReplaceAux pat rep fuel cs

/-- Python `s.replace(pat, rep)` (all occurrences). -/
def pyReplace (s pat rep : String) : String :=
  String.mk (pyReplaceAux pat.data rep.data s.data.length s.data)

/-- Whether `pat` occurs as a contiguous sublist of `l` (substring test). -/
def listOccurs (pat : List Char) : List Char → Bool
  | [] => pat.isEmpty
  | c :: cs => pat.isPrefixOf (c :: cs) || listOccurs pat cs

/-! ## `src/config.py` — columns and the generated upsert clause -/

/-- `DOCTOR_COLUMNS` (src/config.py 19–38); `establishment_count` is
commented out in the source and therefore absent. -/
def DOCTOR_COLUMNS : List String :=
  ["practo_uuid", "slug", "practo_rank", "profile_photo", "profile_url",
   "first_name", "last_name", "qualifications", "specialization",
   "specialties", "experience_years", "summary", "services",
   "services_count", "recommendation_percent", "patients_count",
   "reviews_count"]

/-- `ESTABLISHMENT_COLUMNS` (src/config.py 40–62); `doctor_count` is
commented out in the source and therefore absent. -/
def ESTABLISHMENT_COLUMNS : List String :=
  ["practo_uuid", "name", "slug", "practice_type", "profile_url",
   "image_url", "street_address", "postal_code", "locality", "city",
   "state", "latitude", "longitude", "min_price", "max_price", "phone",
   "phone_extension", "rating", "reviews_count", "practice_timings"]

/-- The exclusion list hard-coded inside `generate_do_update_clause`
(src/config.py 72). -/
def do_update_excluded : List String :=
  ["practo_uuid", "state", "establishment_count", "doctor_count"]

/-- The columns assigned by the generated `DO UPDATE SET` clause: the column
list filtered by the exclusion list (src/config.py 66–74). -/
def do_update_columns (columns : List String) : List String :=
  columns.filter (fun col => !(do_update_excluded.contains col))

/-- `generate_do_update_clause` (src/config.py 66–74): the textual
`col = EXCLUDED.col` clause joined with commas. -/
def generate_do_update_clause (columns : List String) : String :=
  String.intercalate ", "
    ((do_update_columns columns).map (fun col => col ++ " = EXCLUDED." ++ col))

def DOCTOR_DO_UPDATE_CLAUSE : String := generate_do_update_clause DOCTOR_COLUMNS

def ESTABLISHMENT_DO_UPDATE_CLAUSE : String :=
  generate_do_update_clause ESTABLISHMENT_COLUMNS

/-! ## PostgreSQL upsert semantics for the generated queries

A database row is a total assignment of column names to nullable values.
`upsert` is the standard `INSERT … ON CONFLICT (practo_uuid) DO UPDATE SET`
semantics applied to the query text built in src/config.py 80–86: the
proposed row (`EXCLUDED`) carries the inserted values on the insert columns
and NULL elsewhere; on conflict exactly the clause's columns are overwritten. -/

def Row := String → Option String

/-- The row proposed for insertion: inserted values on the insert columns,
SQL NULL on every other column (e.g. the aggregate-count columns). -/
def insertedRow (columns : List String) (vals : Row) : Row :=
  fun c => if columns.contains c then vals c else none

/-- Applying the `DO UPDATE SET` clause to a conflicting row: clause columns
take the `EXCLUDED` (proposed) value, all others keep the old value. -/
def updatedRow (updCols : List String) (excludedRow old : Row) : Row :=
  fun c => if updCols.contains c then excludedRow c else old c

/-- `INSERT … ON CONFLICT (practo_uuid) DO UPDATE SET …` on a table, conflict
keyed by the value of the `practo_uuid` column. -/
def upsert (columns : List String) (vals : Row) (t : List Row) : List Row :=
  if t.all (fun r => !(r "practo_uuid" == vals "practo_uuid")) then
    t ++ [insertedRow columns vals]
  else
    t.map (fun r =>
      if r "practo_uuid" == vals "practo_uuid" then
        updatedRow (do_update_columns columns) (insertedRow columns vals) r
      else r)

/-! ## `src/db/insert_db.py` — `insert_main_data` (lines 192–242)

The loop body `cur.execute(query, tuple(value.values()))` is modelled by
applying `upsert` for the record when the statement succeeds; the
per-record `except` block (lines 224–228) skips the record and continues.
The single `conn.commit()` at line 230 makes the accumulated table final, so
the returned table is exactly what the one enclosing transaction commits.
Whether a statement raises is abstracted by the oracle `ok`. -/

structure InsertMainResult where
  table : List Row
  success_count : Nat
  failure_count : Nat

def insert_main_data (columns : List String) (ok : Row → Bool) (t0 : List Row)
    (data : List Row) : InsertMainResult :=
  data.foldl
    (fun acc value =>
      if ok value then
        { acc with
          table := upsert columns value acc.table
          success_count := acc.success_count + 1 }
      else
        { acc with failure_count := acc.failure_count + 1 })
    ⟨t0, 0, 0⟩

/-! ## Numeric coercion — `clean_numeric` (src/parser/doctor.py 6–15 and
src/parser/establishment.py 6–15, identical definitions)

Python scalar values reaching `clean_numeric` are modelled by `PyVal`;
floating-point numbers are represented by exact rationals (every literal the
claims mention is exactly representable, so rounding plays no role).
`float(s)` is modelled by `pyFloat?`, a parser of the plain finite decimal
forms (optional sign, digits, optional fraction, optional exponent); the
special forms `inf`/`nan`/underscores lie outside every claim. -/

inductive PyVal
  | vstr (s : String)
  | vnone
  | vint (n : Int)
  | vfloat (q : ℚ)
deriving DecidableEq

inductive PyNum
  | nnull
  | nint (n : Int)
  | nfloat (q : ℚ)
deriving DecidableEq

/-- Python `str.isdigit()` restricted to ASCII: non-empty and all digits. -/
def pyIsdigit (s : String) : Bool :=
  !s.data.isEmpty && s.data.all Char.isDigit

/-- Value of a run of decimal digits (`int(s)` for an all-digit string). -/
def digitsVal (cs : List Char) : Nat :=
  cs.foldl (fun a c => a * 10 + (c.toNat - '0'.toNat)) 0

/-- Exponent suffix of a float literal: `[+-]?digits`, nothing after.  The
mantissa is carried as the exact fraction `num / den` and the power of ten is
folded into it, keeping all arithmetic in `Int`/`Nat` and producing the
rational with one final `mkRat`. -/
def pyFloatExp? (num : Int) (den : Nat) (er : List Char) : Option ℚ :=
  let (eneg, er') : Bool × List Char :=
    match er with
    | '-' :: t => (true, t)
    | '+' :: t => (false, t)
    | t => (false, t)
  let ed := er'.takeWhile Char.isDigit
  let rest := er'.dropWhile Char.isDigit
  if ed.isEmpty || !rest.isEmpty then none
  else
    let e := digitsVal ed
    if eneg then some (mkRat num (den * 10 ^ e))
    else some (mkRat (num * ((10 : Int)) ^ e) den)

/-- Python `float(s)` on plain finite decimal literals, as an exact rational;
`none` models `ValueError`. -/
def pyFloat? (s : String) : Option ℚ :=
  let (sign, cs) : Int × List Char :=
    match s.data with
    | '-' :: t => (-1, t)
    | '+' :: t => (1, t)
    | t => (1, t)
  let ip := cs.takeWhile Char.isDigit
  let cs' := cs.dropWhile Char.isDigit
  match cs' with
  | [] => if ip.isEmpty then none else some (mkRat (sign * (digitsVal ip : Int)) 1)
  | '.' :: rest =>
    let fp := rest.takeWhile Char.isDigit
    let rest' := rest.dropWhile Char.isDigit
    if ip.isEmpty && fp.isEmpty then none
    else
      let num : Int :=
        sign * ((digitsVal ip * 10 ^ fp.length + digitsVal fp : Nat) : Int)
      let den : Nat := 10 ^ fp.length
      match rest' with
      | [] => some (mkRat num den)
      | 'e' :: er => pyFloatExp? num den er
      | 'E' :: er => pyFloatExp? num den er
      | _ => none
  | 'e' :: er =>
    if ip.isEmpty then none
    else pyFloatExp? (sign * (digitsVal ip : Int)) 1 er
  | 'E' :: er =>
    if ip.isEmpty then none
    else pyFloatExp? (sign * (digitsVal ip : Int)) 1 er
  | _ => none

/-- `clean_numeric` (src/parser/doctor.py 6–15, src/parser/establishment.py
6–15): `""` and `None` map to `None`; all-digit strings go through `int`;
every other value goes through `float`, and a `ValueError` yields `None`. -/
def clean_numeric : PyVal → PyNum
  | .vnone => .nnull
  | .vstr s =>
    if s = "" then .nnull
    else if pyIsdigit s then .nint (Int.ofNat (digitsVal s.data))
    else
      match pyFloat? s with
      | some q => .nfloat q
      | none => .nnull
  | .vint n => .nfloat (n : ℚ)
  | .vfloat q => .nfloat q

/-! ## Name splitting (src/parser/doctor.py 100–110 and
src/parser/establishment.py 56–57, 74–75)

Both normalizers run `name = full.split(" "); name += [""] * (3 - len(name))`
and join `name[:2]` / `name[2:]` with spaces.  The doctor-listing normalizer
additionally calls `.strip()` on both joined parts; the establishment
relation normalizer does not. -/

/-- Name split of `parse_doctors_data` (src/parser/doctor.py 100–110):
joined parts are stripped. -/
def doctorNameSplit (doctor_name : String) : String × String :=
  let name := pySplit doctor_name ' '
  let name := name ++ List.replicate (3 - name.length) ""
  (pyStrip (pyJoin " " (name.take 2)), pyStrip (pyJoin " " (name.drop 2)))

/-- Name split of `parse_establishment_doctor_relation`
(src/parser/establishment.py 56–57, 74–75): joined parts are NOT stripped. -/
def relationNameSplit (full_name : String) : String × String :=
  let name := pySplit full_name ' '
  let name := name ++ List.replicate (3 - name.length) ""
  (pyJoin " " (name.take 2), pyJoin " " (name.drop 2))

/-! ## Relation extractors — data model

The profile-API JSON shapes walked by `parse_doctor_establishment_relation`
(src/parser/doctor.py 18–79) and `parse_establishment_doctor_relation`
(src/parser/establishment.py 18–83).  Every `dict.get(key, default)` in the
source corresponds to an `Option` field read with `Option.getD`; JSON scalar
payloads that the parsers merely copy are modelled as strings. -/

structure FeeEntry where
  amount : Option String := none
  type : Option String := none
deriving DecidableEq

structure Timing where
  begin_time : Option String := none
  end_time : Option String := none
  available_days : Option (List String) := none
deriving DecidableEq

structure EstCity where
  city_name : Option String := none
  state_name : Option String := none
deriving DecidableEq

structure EstLocality where
  name : Option String := none
deriving DecidableEq

structure EstAddress where
  city : Option EstCity := none
  locality : Option EstLocality := none
  latitude : Option String := none
  longitude : Option String := none
  address_line1 : Option String := none
deriving DecidableEq

structure RelEstablishment where
  fabric_id : Option String := none
  name : Option String := none
  slug : Option String := none
  profile_url : Option String := none
  address : Option EstAddress := none
deriving DecidableEq

structure DocRelation where
  timings : Option (List Timing) := none
  establishment : Option RelEstablishment := none
  fees : Option (List FeeEntry) := none
deriving DecidableEq

structure ProviderRelations where
  relations : Option (List DocRelation) := none
  establishment_count : Option Int := none
deriving DecidableEq

structure DocRespData where
  providerRelations : Option ProviderRelations := none
deriving DecidableEq

structure DocResponse where
  data : Option DocRespData := none
deriving DecidableEq

structure RelProvider where
  fabric_id : Option String := none
  full_name : Option String := none
  enhanced_image_url : Option String := none
  profile_url : Option String := none
  slug : Option String := none
  years_of_experience : Option String := none
deriving DecidableEq

structure EstRelation where
  timings : Option (List Timing) := none
  provider : Option RelProvider := none
  fees : Option (List FeeEntry) := none
deriving DecidableEq

structure EstResult where
  relation : Option EstRelation := none
deriving DecidableEq

structure GetEstablishmentRelations where
  results : Option (List EstResult) := none
  total_results_count : Option Int := none
deriving DecidableEq

structure EstRespData where
  getEstablishmentRelations : Option GetEstablishmentRelations := none
deriving DecidableEq

structure EstResponse where
  data : Option EstRespData := none
deriving DecidableEq

/-- The `relation_info` record built by both extractors (src/parser/doctor.py
44–54, src/parser/establishment.py 61–71): `fees` is the two-element list
`[fees[0].amount, fees[0].type]`. -/
structure RelationInfo where
  doctor_id : String
  establishment_id : String
  fees : List (Option String)
  begin_time : String
  end_time : String
  available_days : List String
deriving DecidableEq

/-- The `establishment_info` stub record (src/parser/doctor.py 55–76). -/
structure DocEstablishmentInfo where
  establishment_id : String
  name : String
  slug : String
  profile_url : String
  city : String
  state : String
  locality : String
  latitude : Option String
  longitude : Option String
  address : String
deriving DecidableEq

/-- The `doctor_info` stub record (src/parser/establishment.py 72–80). -/
structure EstDoctorInfo where
  doctor_id : String
  first_name : String
  last_name : String
  profile_photo : String
  profile_url : String
  slug : String
  experience_years : Option String
deriving DecidableEq

/-- One emitted item of the accumulator dictionary: `relation_info` plus the
side-specific stub info; a present/absent key of the Python dict is an
`Option` field (`insert_relation_data` tests key membership). -/
structure RelItem where
  relation_info : RelationInfo
  doctor_info : Option EstDoctorInfo := none
  establishment_info : Option DocEstablishmentInfo := none
deriving DecidableEq

/-- `value.get("fees", [{}])[0]` (src/parser/doctor.py 48–49,
src/parser/establishment.py 65–66): an absent `fees` key defaults to `[{}]`
whose head is the empty dict, but a present empty list makes the `[0]` index
raise `IndexError`. -/
def feesFirst (fees : Option (List FeeEntry)) : Except String FeeEntry :=
  match fees with
  | none => .ok {}
  | some [] => .error "list index out of range"
  | some (f :: _) => .ok f

/-- Total companion of `feesFirst` used to state results on the success path. -/
def feeHead (fees : Option (List FeeEntry)) : FeeEntry :=
  match fees with
  | none => {}
  | some [] => {}
  | some (f :: _) => f

/-! ## `parse_doctor_establishment_relation` (src/parser/doctor.py 18–79) -/

/-- The item built for one (relation, timing) pair once `fees[0]` has been
read (src/parser/doctor.py 43–77). -/
def docEdgeWith (doctor_id : String) (value : DocRelation) (fee0 : FeeEntry)
    (timing : Timing) : RelItem :=
  let establishment := value.establishment.getD {}
  let address := establishment.address.getD {}
  { relation_info :=
      { doctor_id := doctor_id
        establishment_id := establishment.fabric_id.getD ""
        fees := [fee0.amount, fee0.type]
        begin_time := timing.begin_time.getD ""
        end_time := timing.end_time.getD ""
        available_days := timing.available_days.getD [] }
    establishment_info := some
      { establishment_id := establishment.fabric_id.getD ""
        name := establishment.name.getD ""
        slug := establishment.slug.getD ""
        profile_url := establishment.profile_url.getD ""
        city := (address.city.getD {}).city_name.getD ""
        state := (address.city.getD {}).state_name.getD ""
        locality := (address.locality.getD {}).name.getD ""
        latitude := address.latitude
        longitude := address.longitude
        address := address.address_line1.getD "" } }

/-- One iteration of the inner `for timing in timings` body: reading
`fees[0]` can raise. -/
def mkDocEdge (doctor_id : String) (value : DocRelation) (timing : Timing) :
    Except String RelItem :=
  match feesFirst value.fees with
  | .error e => .error e
  | .ok fee0 => .ok (docEdgeWith doctor_id value fee0 timing)

/-- Success-path value of `mkDocEdge`. -/
def okDocEdge (doctor_id : String) (value : DocRelation) (timing : Timing) :
    RelItem :=
  docEdgeWith doctor_id value (feeHead value.fees) timing

/-- The inner `for timing in timings` loop. -/
def docEdgesOfTimings (doctor_id : String) (value : DocRelation) :
    List Timing → Except String (List RelItem)
  | [] => .ok []
  | t :: ts =>
    match mkDocEdge doctor_id value t with
    | .error e => .error e
    | .ok edge =>
      match docEdgesOfTimings doctor_id value ts with
      | .error e => .error e
      | .ok rest => .ok (edge :: rest)

/-- The outer `for value in relations` loop; the dictionary keyed by the
running index is represented by the list in emission order. -/
def docEdgesOfRelations (doctor_id : String) :
    List DocRelation → Except String (List RelItem)
  | [] => .ok []
  | v :: vs =>
    match docEdgesOfTimings doctor_id v (v.timings.getD []) with
    | .error e => .error e
    | .ok es =>
      match docEdgesOfRelations doctor_id vs with
      | .error e => .error e
      | .ok rest => .ok (es ++ rest)

/-- The relation list reached through the defaulted `get` chain
(src/parser/doctor.py 30–32). -/
def docRelationsOf (response : DocResponse) : List DocRelation :=
  (((response.data.getD {}).providerRelations.getD {}).relations.getD [])

/-- `parse_doctor_establishment_relation` (src/parser/doctor.py 18–79):
returns `(data, establishment_count, 0, 0)`; an uncaught `IndexError` inside
the loops aborts the whole call. -/
def parse_doctor_establishment_relation (doctor_id : String)
    (response : DocResponse) :
    Except String (List RelItem × Option Int × Nat × Nat) :=
  let count :=
    ((response.data.getD {}).providerRelations.getD {}).establishment_count
  match docEdgesOfRelations doctor_id (docRelationsOf response) with
  | .error e => .error e
  | .ok edges => .ok (edges, count, 0, 0)

/-! ## `parse_establishment_doctor_relation`
(src/parser/establishment.py 18–83) -/

/-- The item built for one (relation, timing) pair once `fees[0]` has been
read (src/parser/establishment.py 60–81); the provider name is split by
`relationNameSplit` (no strip). -/
def estEdgeWith (establishment_id : String) (value : EstRelation)
    (fee0 : FeeEntry) (timing : Timing) : RelItem :=
  let provider := value.provider.getD {}
  let nm := relationNameSplit (provider.full_name.getD "")
  { relation_info :=
      { doctor_id := provider.fabric_id.getD ""
        establishment_id := establishment_id
        fees := [fee0.amount, fee0.type]
        begin_time := timing.begin_time.getD ""
        end_time := timing.end_time.getD ""
        available_days := timing.available_days.getD [] }
    doctor_info := some
      { doctor_id := provider.fabric_id.getD ""
        first_name := nm.1
        last_name := nm.2
        profile_photo := provider.enhanced_image_url.getD ""
        profile_url := provider.profile_url.getD ""
        slug := provider.slug.getD ""
        experience_years := provider.years_of_experience } }

/-- One iteration of the inner `for timing in timings` body. -/
def mkEstEdge (establishment_id : String) (value : EstRelation)
    (timing : Timing) : Except String RelItem :=
  match feesFirst value.fees with
  | .error e => .error e
  | .ok fee0 => .ok (estEdgeWith establishment_id value fee0 timing)

/-- Success-path value of `mkEstEdge`. -/
def okEstEdge (establishment_id : String) (value : EstRelation)
    (timing : Timing) : RelItem :=
  estEdgeWith establishment_id value (feeHead value.fees) timing

/-- The inner `for timing in timings` loop. -/
def estEdgesOfTimings (establishment_id : String) (value : EstRelation) :
    List Timing → Except String (List RelItem)
  | [] => .ok []
  | t :: ts =>
    match mkEstEdge establishment_id value t with
    | .error e => .error e
    | .ok edge =>
      match estEdgesOfTimings establishment_id value ts with
      | .error e => .error e
      | .ok rest => .ok (edge :: rest)

/-- The outer `for relation in relations` loop,
with `value = relation.get("relation", {})`. -/
def estEdgesOfResults (establishment_id : String) :
    List EstResult → Except String (List RelItem)
  | [] => .ok []
  | rel :: rest =>
    let value := rel.relation.getD {}
    match estEdgesOfTimings establishment_id value (value.timings.getD []) with
    | .error e => .error e
    | .ok es =>
      match estEdgesOfResults establishment_id rest with
      | .error e => .error e
      | .ok more => .ok (es ++ more)

/-- The relation list reached through the defaulted `get` chain
(src/parser/establishment.py 47–49). -/
def estResultsOf (response : EstResponse) : List EstResult :=
  (((response.data.getD {}).getEstablishmentRelations.getD {}).results.getD [])

/-- Modelled from the spec: the BeautifulSoup lookup of the bed/ambulance
`h3` element is outside src/ (library code); its stripped text, when the
element exists, is the `Option String` input, and the code then takes the
segment after the last `-` separator (src/parser/establishment.py 38–45). -/
def countFromTag (tag_text : Option String) : Option String :=
  tag_text.map (fun t => (pySplit (pyStrip t) '-').getLastD "")

/-- `parse_establishment_doctor_relation` (src/parser/establishment.py
18–83): returns `(data, total_results_count, bed_count, amb_count)`; an
uncaught `IndexError` inside the loops aborts the whole call. -/
def parse_establishment_doctor_relation (establishment_id : String)
    (response : EstResponse) (beds_text ambulances_text : Option String) :
    Except String (List RelItem × Option Int × Option String × Option String) :=
  let doctor_count :=
    ((response.data.getD {}).getEstablishmentRelations.getD {}).total_results_count
  let bed_count := countFromTag beds_text
  let amb_count := countFromTag ambulances_text
  match estEdgesOfResults establishment_id (estResultsOf response) with
  | .error e => .error e
  | .ok edges => .ok (edges, doctor_count, bed_count, amb_count)

/-! ## `src/utils/http.py` — `make_request` (lines 17–120)

The loop is driven by the HTTP status of each attempt (`statuses i` is the
status of attempt `i`; a status below 400 makes `raise_for_status` pass and
the call succeed).  Connection/timeout/JSON-decode branches all fall through
to the same retry logic as 5xx and are subsumed by a retryable status here.
The result pairs the outcome with the number of attempts performed. -/

structure RequestError where
  message : String
  status_code : Option Nat := none
  url : Option String := none
deriving DecidableEq

/-- The `for attempt in range(max_retries)` loop (src/utils/http.py 61–120):
`remaining` is the number of loop iterations left, `attempt` the Python loop
index.  A 4xx status other than 429 raises `RequestError` with the status
and URL immediately (lines 95–101); exhausting the loop raises the terminal
`RequestError` that carries only the URL (lines 117–120). -/
def make_request_loop (statuses : Nat → Nat) (url : String)
    (max_retries : Nat) : Nat → Nat → Except RequestError Unit × Nat
  | attempt, 0 =>
    (.error
      { message := "Request failed after " ++ toString max_retries ++ " attempts"
        url := some url },
     attempt)
  | attempt, remaining + 1 =>
    let code := statuses attempt
    if code < 400 then (.ok (), attempt + 1)
    else if code < 500 && code != 429 then
      (.error
        { message := "HTTP error: " ++ toString code
          status_code := some code
          url := some url },
       attempt + 1)
    else make_request_loop statuses url max_retries (attempt + 1) remaining

/-- `make_request` (src/utils/http.py 17–120), with the source's default
`max_retries=3` passed explicitly by every caller in this model. -/
def make_request (statuses : Nat → Nat) (url : String) (max_retries : Nat) :
    Except RequestError Unit × Nat :=
  make_request_loop statuses url max_retries 0 max_retries

/-! ## `src/main.py` — pagination and the page-URL rewrite (lines 137–151) -/

/-- `total_pages = (count // 10) + 1` (src/main.py 147). -/
def total_pages (count : Nat) : Nat := count / 10 + 1

/-- The page numbers the orchestrator walks for a seed URL with extracted
result count `count`: `count == 0` skips the URL (src/main.py 137–139),
otherwise `for page in range(1, total_pages + 1)` (src/main.py 149). -/
def pages_processed (count : Nat) : List Nat :=
  if count = 0 then [] else List.range' 1 (total_pages count)

/-- `page_url = link.replace("page=1", f"page={page}")` (src/main.py 150). -/
def pageUrl (link : String) (page : Nat) : String :=
  pyReplace link "page=1" ("page=" ++ toString page)

/-! ## `src/db/insert_db.py` — `insert_relation_data` (lines 106–189)

Statements issued on the single connection are reified by `RelStmt`; the
oracle `ok` says whether a `cur.execute` succeeds (a failing execute has no
effect), and `exq` is the database's answer to `CHECK_EXISTENCE_QUERY`.
The function returns the list of effective statements the one final
`conn.commit()` (line 177) makes durable, or the `DatabaseError` raised by
the outer handler (lines 180–184) after a rollback. -/

inductive RelStmt
  | updateDoctorCount (count : Option Int) (practo_id : String)
  | updateEstablishmentCounts (count : Option Int) (bed amb : Option String)
      (practo_id : String)
  | checkExistence (doctor_uuid establishment_uuid : String)
  | insertDoctorSmall (info : EstDoctorInfo)
  | insertEstablishmentSmall (info : DocEstablishmentInfo)
  | insertRelation (info : RelationInfo)
deriving DecidableEq

/-- The body of `for item_id, value in relation.items()` (src/db/insert_db.py
141–175): existence check, the `if`/`elif` stub insert, then the relation
insert; the per-item `except` catches any failure, keeping the statements
that already executed, and the loop continues.  Returns (effective
statements of this item, whether the item completed). -/
def processItem (ok : RelStmt → Bool) (exq : String → String → Bool × Bool)
    (value : RelItem) : List RelStmt × Bool :=
  let relations_data := value.relation_info
  let doctor_uuid := relations_data.doctor_id
  let establishment_uuid := relations_data.establishment_id
  let chk := RelStmt.checkExistence doctor_uuid establishment_uuid
  if !(ok chk) then ([], false)
  else
    let ex := exq doctor_uuid establishment_uuid
    let doctor_exists := ex.1
    let establishment_exists := ex.2
    let stub : Option RelStmt :=
      match doctor_exists, value.doctor_info,
            establishment_exists, value.establishment_info with
      | false, some d, _, _ => some (.insertDoctorSmall d)
      | false, none, false, some e => some (.insertEstablishmentSmall e)
      | true, _, false, some e => some (.insertEstablishmentSmall e)
      | _, _, _, _ => none
    match stub with
    | some s =>
      if !(ok s) then ([chk], false)
      else
        let ins := RelStmt.insertRelation relations_data
        if !(ok ins) then ([chk, s], false) else ([chk, s, ins], true)
    | none =>
      let ins := RelStmt.insertRelation relations_data
      if !(ok ins) then ([chk], false) else ([chk, ins], true)

/-- The aggregate-count `UPDATE` chosen by `mapping[key]` (src/db/insert_db.py
120–138); an unknown key raises `KeyError` inside the outer `try`. -/
def countsStmt (key : String) (count : Option Int)
    (bed_count amb_count : Option String) (practo_id : String) :
    Option RelStmt :=
  if key = "doctor" then some (.updateDoctorCount count practo_id)
  else if key = "hospital" || key = "clinic" then
    some (.updateEstablishmentCounts count bed_count amb_count practo_id)
  else none

/-- `insert_relation_data` (src/db/insert_db.py 106–189). -/
def insert_relation_data (ok : RelStmt → Bool)
    (exq : String → String → Bool × Bool) (relation : List RelItem)
    (count : Option Int) (bed_count amb_count : Option String)
    (practo_id : String) (key : String) : Except String (List RelStmt) :=
  match countsStmt key count bed_count amb_count practo_id with
  | none => .error "Failed to insert relation data: KeyError"
  | some c =>
    if !(ok c) then .error "Failed to insert relation data"
    else .ok (c :: relation.flatMap (fun v => (processItem ok exq v).1))

/-! ## Concrete payloads used by counterexamples and witnesses -/

/-- An existing establishment row (as stored), with `state` set. -/
def estRowV1 : Row := fun c =>
  if c = "practo_uuid" then some "uuid-1"
  else if c = "state" then some "Karnataka"
  else some "old"

/-- A re-ingested record for the same UUID with every field changed. -/
def estRowV2 : Row := fun c =>
  if c = "practo_uuid" then some "uuid-1"
  else if c = "state" then some "Goa"
  else some "new"

def wTiming1 : Timing :=
  { begin_time := some "10:00", end_time := some "12:00"
    available_days := some ["Monday", "Tuesday"] }

def wTiming2 : Timing :=
  { begin_time := some "14:00", end_time := some "16:00"
    available_days := some ["Wednesday"] }

def wTiming3 : Timing :=
  { begin_time := some "18:00", end_time := some "20:00"
    available_days := some ["Friday"] }

def wFee : FeeEntry := { amount := some "500", type := some "consult" }

def wEstablishment : RelEstablishment :=
  { fabric_id := some "e-1", name := some "Clinic One" }

/-- One relation, one fee entry, three timing windows. -/
def wDocRelation : DocRelation :=
  { timings := some [wTiming1, wTiming2, wTiming3]
    establishment := some wEstablishment, fees := some [wFee] }

/-- Builds a doctor-profile response around a relation list and a count. -/
def mkDocResponse (relations : Option (List DocRelation)) (count : Option Int) : DocResponse :=
  { data := some { providerRelations := some { relations := relations, establishment_count := count } } }

/-- Builds an establishment-profile response around a result list and a count. -/
def mkEstResponse (results : Option (List EstResult)) (count : Option Int) : EstResponse :=
  { data := some { getEstablishmentRelations := some { results := results, total_results_count := count } } }

def wDocResponse : DocResponse := mkDocResponse (some [wDocRelation]) (some 3)

/-- A relation whose establishment has no `fabric_id`. -/
def wDocRelationBlank : DocRelation :=
  { timings := some [wTiming1]
    establishment := some { name := some "No Id" }, fees := some [wFee] }

def wDocResponseBlank : DocResponse :=
  mkDocResponse (some [wDocRelationBlank]) (some 1)

/-- A relation with an explicitly empty fee list and one timing window. -/
def cDocRelationEmptyFees : DocRelation :=
  { timings := some [wTiming1], establishment := some wEstablishment
    fees := some [] }

def cDocResponseEmptyFees : DocResponse :=
  mkDocResponse (some [cDocRelationEmptyFees]) (some 1)

/-- A relation with no `fees` key at all. -/
def cDocRelationNoFees : DocRelation :=
  { timings := some [wTiming1], establishment := some wEstablishment }

def cDocResponseNoFees : DocResponse :=
  mkDocResponse (some [cDocRelationNoFees]) (some 1)

/-- An empty fee list but no timing windows: the `[0]` index is never
evaluated. -/
def cDocRelationEmptyFeesNoTimings : DocRelation :=
  { establishment := some wEstablishment, fees := some [] }

def cDocResponseEmptyFeesNoTimings : DocResponse :=
  mkDocResponse (some [cDocRelationEmptyFeesNoTimings]) (some 1)

def wProvider : RelProvider :=
  { fabric_id := some "d-1", full_name := some "Dr John Doe" }

def wEstRelation : EstRelation :=
  { timings := some [wTiming1, wTiming2], provider := some wProvider
    fees := some [wFee] }

def wEstResponse : EstResponse :=
  mkEstResponse (some [{ relation := some wEstRelation }]) (some 2)

def cEstRelationEmptyFees : EstRelation :=
  { timings := some [wTiming1], provider := some wProvider, fees := some [] }

def cEstResponseEmptyFees : EstResponse :=
  mkEstResponse (some [{ relation := some cEstRelationEmptyFees }]) (some 1)

/-- A provider with a one-token display name and no `fabric_id`. -/
def wEstRelationBlank : EstRelation :=
  { timings := some [wTiming1], provider := some { full_name := some "A" }
    fees := some [wFee] }

def wEstResponseBlank : EstResponse :=
  mkEstResponse (some [{ relation := some wEstRelationBlank }]) (some 1)

/-- A well-formed relation item of a doctor-side batch. -/
def wRelItem : RelItem :=
  { relation_info :=
      { doctor_id := "d-1", establishment_id := "e-1"
        fees := [some "500", some "consult"]
        begin_time := "10:00", end_time := "12:00"
        available_days := ["Monday"] }
    doctor_info := some
      { doctor_id := "d-1", first_name := "Dr John", last_name := "Doe"
        profile_photo := "", profile_url := "", slug := ""
        experience_years := none } }

/-! ## Stated properties (conclusions of the claim theorems) -/

/-- Success and shape of the doctor-side extractor: the emitted batch is the
relation-by-timing cross product, in order, and its size is the sum of the
timing counts. -/
def docExpansionOk (doctor_id : String) (response : DocResponse) : Prop :=
  ∃ edges,
    parse_doctor_establishment_relation doctor_id response =
      .ok (edges,
        ((response.data.getD {}).providerRelations.getD {}).establishment_count,
        0, 0) ∧
    edges = (docRelationsOf response).flatMap
      (fun v => (v.timings.getD []).map (okDocEdge doctor_id v)) ∧
    edges.length =
      ((docRelationsOf response).map (fun v => (v.timings.getD []).length)).sum

/-- Success and shape of the establishment-side extractor. -/
def estExpansionOk (establishment_id : String) (response : EstResponse)
    (beds_text ambulances_text : Option String) : Prop :=
  ∃ edges,
    parse_establishment_doctor_relation establishment_id response
        beds_text ambulances_text =
      .ok (edges,
        ((response.data.getD {}).getEstablishmentRelations.getD {}).total_results_count,
        countFromTag beds_text, countFromTag ambulances_text) ∧
    edges = (estResultsOf response).flatMap
      (fun res => ((res.relation.getD {}).timings.getD []).map
        (okEstEdge establishment_id (res.relation.getD {}))) ∧
    edges.length =
      ((estResultsOf response).map
        (fun res => ((res.relation.getD {}).timings.getD []).length)).sum

/-- Every emitted edge carries the relation's `fees[0]` amount/type pair and
its own timing's begin/end/weekday fields (both extractors). -/
def edgeFieldsOk (doctor_id establishment_id : String) : Prop :=
  (∀ (v : DocRelation) (t : Timing),
    (okDocEdge doctor_id v t).relation_info.fees =
        [(feeHead v.fees).amount, (feeHead v.fees).type] ∧
    (okDocEdge doctor_id v t).relation_info.begin_time = t.begin_time.getD "" ∧
    (okDocEdge doctor_id v t).relation_info.end_time = t.end_time.getD "" ∧
    (okDocEdge doctor_id v t).relation_info.available_days =
        t.available_days.getD []) ∧
  (∀ (v : EstRelation) (t : Timing),
    (okEstEdge establishment_id v t).relation_info.fees =
        [(feeHead v.fees).amount, (feeHead v.fees).type] ∧
    (okEstEdge establishment_id v t).relation_info.begin_time =
        t.begin_time.getD "" ∧
    (okEstEdge establishment_id v t).relation_info.end_time =
        t.end_time.getD "" ∧
    (okEstEdge establishment_id v t).relation_info.available_days =
        t.available_days.getD [])

/-- Conclusion of the relation-expansion claim for both extractors. -/
def relationExpansionProp (doctor_id establishment_id : String)
    (dresp : DocResponse) (eresp : EstResponse)
    (beds_text ambulances_text : Option String) : Prop :=
  docExpansionOk doctor_id dresp ∧
  estExpansionOk establishment_id eresp beds_text ambulances_text ∧
  edgeFieldsOk doctor_id establishment_id

/-- Conclusion of the blank-identity claim: blank or absent counterpart ids
still yield one edge per timing, with the id as the empty string. -/
def blankIdProp (doctor_id establishment_id : String)
    (dresp : DocResponse) (eresp : EstResponse) : Prop :=
  docExpansionOk doctor_id dresp ∧
  estExpansionOk establishment_id eresp none none ∧
  (∀ v ∈ docRelationsOf dresp,
    (v.establishment.getD {}).fabric_id.getD "" = "" →
    ∀ t : Timing,
      (okDocEdge doctor_id v t).relation_info.establishment_id = "") ∧
  (∀ res ∈ estResultsOf eresp,
    ((res.relation.getD {}).provider.getD {}).fabric_id.getD "" = "" →
    ∀ t : Timing,
      (okEstEdge establishment_id (res.relation.getD {}) t).relation_info.doctor_id = "")

/-- Conclusion of the amended upsert claim, establishment query: re-ingesting
over an existing row leaves one row that keeps the UUID, `state` and the
aggregate-count columns and takes the new value on every clause column. -/
def c1EstUpsertProp (r0 vals : Row) : Prop :=
  ∃ r, (insert_main_data ESTABLISHMENT_COLUMNS (fun _ => true) [r0] [vals]).table = [r] ∧
    r "practo_uuid" = r0 "practo_uuid" ∧
    r "state" = r0 "state" ∧
    r "establishment_count" = r0 "establishment_count" ∧
    r "doctor_count" = r0 "doctor_count" ∧
    ∀ c ∈ do_update_columns ESTABLISHMENT_COLUMNS, r c = vals c

/-- Conclusion of the amended upsert claim, doctor query: here the exclusion
list is vacuous beyond the UUID, so every non-identity column is updated. -/
def c1DocUpsertProp (r0 vals : Row) : Prop :=
  ∃ r, (insert_main_data DOCTOR_COLUMNS (fun _ => true) [r0] [vals]).table = [r] ∧
    r "practo_uuid" = r0 "practo_uuid" ∧
    r "establishment_count" = r0 "establishment_count" ∧
    ∀ c ∈ DOCTOR_COLUMNS, c ≠ "practo_uuid" → r c = vals c

/-- Conclusion of the batch-isolation claim: the entity batch commits exactly
the per-record successes, and the relation batch commits the aggregate-count
update plus each item's effective statements, independently of the other
items' failures. -/
def c4Conclusion (columns : List String) (ok : Row → Bool) (t0 : List Row)
    (data : List Row) (rok : RelStmt → Bool)
    (exq : String → String → Bool × Bool) (relation : List RelItem)
    (count : Option Int) (bed_count amb_count : Option String)
    (practo_id key : String) (c : RelStmt) : Prop :=
  (insert_main_data columns ok t0 data =
    { table := (data.filter ok).foldl (fun t v => upsert columns v t) t0
      success_count := (data.filter ok).length
      failure_count := (data.filter (fun v => !(ok v))).length }) ∧
  (insert_relation_data rok exq relation count bed_count amb_count practo_id key =
    .ok (c :: relation.flatMap (fun v => (processItem rok exq v).1))) ∧
  (∀ v ∈ relation, (processItem rok exq v).2 = true →
    RelStmt.insertRelation v.relation_info ∈
      c :: relation.flatMap (fun v => (processItem rok exq v).1))

/-! ## Helper lemmas -/

theorem pyReplaceAux_of_not_occurs (pat rep : List Char) :
    ∀ (fuel : Nat) (l : List Char), listOccurs pat l = false →
      pyReplaceAux pat rep fuel l = l := by
  intro fuel
  induction fuel with
  | zero => intro l _; cases l <;> rfl
  | succ n ih =>
    intro l h
    cases l with
    | nil => rfl
    | cons c cs =>
      have h' := h
      unfold listOccurs at h'
      rw [Bool.or_eq_false_iff] at h'
      unfold pyReplaceAux
      rw [h'.1]
      simp only [Bool.false_and, Bool.false_eq_true, if_false]
      rw [ih cs h'.2]

/-- If the pattern does not occur in `s`, `pyReplace` returns `s` unchanged. -/
theorem pyReplace_of_not_occurs (s pat rep : String)
    (h : listOccurs pat.data s.data = false) : pyReplace s pat rep = s := by
  unfold pyReplace
  rw [pyReplaceAux_of_not_occurs pat.data rep.data s.data.length s.data h]

theorem feesFirst_ok (fees : Option (List FeeEntry)) (h : fees ≠ some []) :
    feesFirst fees = .ok (feeHead fees) := by
  match fees with
  | none => rfl
  | some [] => exact absurd rfl h
  | some (f :: _) => rfl

theorem docEdgesOfTimings_ok (doctor_id : String) (v : DocRelation)
    (h : v.fees ≠ some []) (ts : List Timing) :
    docEdgesOfTimings doctor_id v ts = .ok (ts.map (okDocEdge doctor_id v)) := by
  induction ts with
  | nil => rfl
  | cons t ts ih =>
    simp only [docEdgesOfTimings, mkDocEdge, feesFirst_ok v.fees h, ih,
      List.map_cons]
    rfl

theorem docEdgesOfRelations_ok (doctor_id : String) (vs : List DocRelation)
    (h : ∀ v ∈ vs, v.fees ≠ some []) :
    docEdgesOfRelations doctor_id vs =
      .ok (vs.flatMap (fun v => (v.timings.getD []).map (okDocEdge doctor_id v))) := by
  induction vs with
  | nil => rfl
  | cons v vs ih =>
    have hv := h v (List.mem_cons_self v vs)
    have hrest := ih (fun w hw => h w (List.mem_cons_of_mem v hw))
    simp only [docEdgesOfRelations, docEdgesOfTimings_ok doctor_id v hv, hrest,
      List.flatMap_cons]

theorem estEdgesOfTimings_ok (establishment_id : String) (v : EstRelation)
    (h : v.fees ≠ some []) (ts : List Timing) :
    estEdgesOfTimings establishment_id v ts =
      .ok (ts.map (okEstEdge establishment_id v)) := by
  induction ts with
  | nil => rfl
  | cons t ts ih =>
    simp only [estEdgesOfTimings, mkEstEdge, feesFirst_ok v.fees h, ih,
      List.map_cons]
    rfl

theorem estEdgesOfResults_ok (establishment_id : String) (rs : List EstResult)
    (h : ∀ res ∈ rs, (res.relation.getD {}).fees ≠ some []) :
    estEdgesOfResults establishment_id rs =
      .ok (rs.flatMap (fun res => ((res.relation.getD {}).timings.getD []).map
        (okEstEdge establishment_id (res.relation.getD {})))) := by
  induction rs with
  | nil => rfl
  | cons res rs ih =>
    have hv := h res (List.mem_cons_self res rs)
    have hrest := ih (fun w hw => h w (List.mem_cons_of_mem res hw))
    simp only [estEdgesOfResults, estEdgesOfTimings_ok establishment_id _ hv,
      hrest, List.flatMap_cons]

theorem parse_doc_ok (doctor_id : String) (response : DocResponse)
    (h : ∀ v ∈ docRelationsOf response, v.fees ≠ some []) :
    parse_doctor_establishment_relation doctor_id response =
      .ok ((docRelationsOf response).flatMap
          (fun v => (v.timings.getD []).map (okDocEdge doctor_id v)),
        ((response.data.getD {}).providerRelations.getD {}).establishment_count,
        0, 0) := by
  simp only [parse_doctor_establishment_relation,
    docEdgesOfRelations_ok doctor_id _ h]

theorem parse_est_ok (establishment_id : String) (response : EstResponse)
    (beds_text ambulances_text : Option String)
    (h : ∀ res ∈ estResultsOf response, (res.relation.getD {}).fees ≠ some []) :
    parse_establishment_doctor_relation establishment_id response
        beds_text ambulances_text =
      .ok ((estResultsOf response).flatMap
          (fun res => ((res.relation.getD {}).timings.getD []).map
            (okEstEdge establishment_id (res.relation.getD {}))),
        ((response.data.getD {}).getEstablishmentRelations.getD {}).total_results_count,
        countFromTag beds_text, countFromTag ambulances_text) := by
  simp only [parse_establishment_doctor_relation,
    estEdgesOfResults_ok establishment_id _ h]

theorem insert_main_data_foldl (columns : List String) (ok : Row → Bool) :
    ∀ (data : List Row) (t : List Row) (s f : Nat),
      List.foldl
        (fun acc value =>
          if ok value then
            { acc with
              table := upsert columns value acc.table
              success_count := acc.success_count + 1 }
          else { acc with failure_count := acc.failure_count + 1 })
        (⟨t, s, f⟩ : InsertMainResult) data =
      ⟨(data.filter ok).foldl (fun tb v => upsert columns v tb) t,
        s + (data.filter ok).length,
        f + (data.filter (fun v => !(ok v))).length⟩ := by
  intro data
  induction data with
  | nil => intro t s f; simp
  | cons v vs ih =>
    intro t s f
    cases hv : ok v with
    | true =>
      simp only [List.foldl_cons, hv, if_true, List.filter_cons]
      rw [ih]
      simp [hv, Nat.add_assoc, Nat.add_comm 1]
    | false =>
      simp only [List.foldl_cons, hv, Bool.false_eq_true, if_false,
        List.filter_cons]
      rw [ih]
      simp [hv, Nat.add_assoc, Nat.add_comm 1]

theorem processItem_mem (rok : RelStmt → Bool)
    (exq : String → String → Bool × Bool) (v : RelItem)
    (h : (processItem rok exq v).2 = true) :
    RelStmt.insertRelation v.relation_info ∈ (processItem rok exq v).1 := by
  unfold processItem at h ⊢
  cases hchk : rok (RelStmt.checkExistence v.relation_info.doctor_id
      v.relation_info.establishment_id) with
  | false => simp [hchk] at h
  | true =>
    simp only [hchk, Bool.not_true, Bool.false_eq_true, if_false] at h ⊢
    split at h <;> rename_i hstub <;> (repeat' split at h) <;> simp_all

theorem upsert_conflict (columns : List String) (r0 vals : Row)
    (h : (r0 "practo_uuid" == vals "practo_uuid") = true) :
    upsert columns vals [r0] =
      [updatedRow (do_update_columns columns) (insertedRow columns vals) r0] := by
  have h' : r0 "practo_uuid" = vals "practo_uuid" := by
    have hb := h
    rwa [beq_iff_eq] at hb
  simp [upsert, h, h']

theorem insert_main_single (columns : List String) (r0 vals : Row)
    (h : (r0 "practo_uuid" == vals "practo_uuid") = true) :
    (insert_main_data columns (fun _ => true) [r0] [vals]).table =
      [updatedRow (do_update_columns columns) (insertedRow columns vals) r0] := by
  simp only [insert_main_data, List.foldl_cons, List.foldl_nil, if_true]
  exact upsert_conflict columns r0 vals h

theorem updatedRow_keep (updCols : List String) (e old : Row) (c : String)
    (h : updCols.contains c = false) : updatedRow updCols e old c = old c := by
  unfold updatedRow
  rw [h]
  simp

theorem updatedRow_take (updCols : List String) (e old : Row) (c : String)
    (h : updCols.contains c = true) : updatedRow updCols e old c = e c := by
  unfold updatedRow
  rw [h]
  simp

theorem insertedRow_mem (columns : List String) (vals : Row) (c : String)
    (h : columns.contains c = true) : insertedRow columns vals c = vals c := by
  unfold insertedRow
  rw [h]
  simp

/-! ## Claim theorems -/

/-- C1 counterexample: `state` is a non-identity, non-aggregate column of the
establishment insert, yet re-ingesting the same UUID with a new `state`
value keeps the old one (while e.g. `city` does take the new value), because
`generate_do_update_clause` also excludes `state`. -/
theorem c1_counterexample :
    "state" ∈ ESTABLISHMENT_COLUMNS ∧
    "state" ∉ ["practo_uuid", "establishment_count", "doctor_count"] ∧
    estRowV2 "state" = some "Goa" ∧
    ((insert_main_data ESTABLISHMENT_COLUMNS (fun _ => true) []
        [estRowV1, estRowV2]).table.map (fun r => r "state")) =
      [some "Karnataka"] ∧
    some "Karnataka" ≠ some "Goa" ∧
    ((insert_main_data ESTABLISHMENT_COLUMNS (fun _ => true) []
        [estRowV1, estRowV2]).table.map (fun r => r "city")) = [some "new"] := by
  refine ⟨by decide, by decide, rfl, by decide, by decide, by decide⟩

/-- C1 amended: on conflict by UUID every clause column is updated, while the
UUID, the establishment `state` column, and the aggregate-count columns are
left untouched; for the doctor query the exclusion is vacuous beyond the
UUID, and re-ingesting the same UUID twice leaves exactly one row. -/
theorem c1_upsert_amended :
    (∀ r0 vals : Row, (r0 "practo_uuid" == vals "practo_uuid") = true →
      c1EstUpsertProp r0 vals ∧ c1DocUpsertProp r0 vals) ∧
    (∀ vals vals' : Row, (vals "practo_uuid" == vals' "practo_uuid") = true →
      ((insert_main_data ESTABLISHMENT_COLUMNS (fun _ => true) []
          [vals, vals']).table).length = 1 ∧
      ((insert_main_data DOCTOR_COLUMNS (fun _ => true) []
          [vals, vals']).table).length = 1) := by
  constructor
  · intro r0 vals h
    constructor
    · refine ⟨updatedRow (do_update_columns ESTABLISHMENT_COLUMNS)
        (insertedRow ESTABLISHMENT_COLUMNS vals) r0,
        insert_main_single _ r0 vals h, ?_, ?_, ?_, ?_, ?_⟩
      · exact updatedRow_keep _ _ _ _ (by decide)
      · exact updatedRow_keep _ _ _ _ (by decide)
      · exact updatedRow_keep _ _ _ _ (by decide)
      · exact updatedRow_keep _ _ _ _ (by decide)
      · intro c hc
        have hcon : (do_update_columns ESTABLISHMENT_COLUMNS).contains c = true :=
          List.elem_eq_true_of_mem hc
        have hcols : c ∈ ESTABLISHMENT_COLUMNS := by
          unfold do_update_columns at hc
          exact (List.mem_filter.mp hc).1
        rw [updatedRow_take _ _ _ _ hcon,
          insertedRow_mem _ _ _ (List.elem_eq_true_of_mem hcols)]
    · refine ⟨updatedRow (do_update_columns DOCTOR_COLUMNS)
        (insertedRow DOCTOR_COLUMNS vals) r0,
        insert_main_single _ r0 vals h, ?_, ?_, ?_⟩
      · exact updatedRow_keep _ _ _ _ (by decide)
      · exact updatedRow_keep _ _ _ _ (by decide)
      · intro c hc hne
        have hcon : (do_update_columns DOCTOR_COLUMNS).contains c = true := by
          apply List.elem_eq_true_of_mem
          unfold do_update_columns
          refine List.mem_filter.mpr ⟨hc, ?_⟩
          fin_cases hc <;> first | decide | exact absurd rfl hne
        rw [updatedRow_take _ _ _ _ hcon,
          insertedRow_mem _ _ _ (List.elem_eq_true_of_mem hc)]
  · intro vals vals' h
    have h1 : ESTABLISHMENT_COLUMNS.contains "practo_uuid" = true := by decide
    have h2 : DOCTOR_COLUMNS.contains "practo_uuid" = true := by
      decide
    constructor
    · simp only [insert_main_data, List.foldl_cons, List.foldl_nil, if_true]
      rw [show upsert ESTABLISHMENT_COLUMNS vals [] =
        [insertedRow ESTABLISHMENT_COLUMNS vals] from by simp [upsert]]
      rw [upsert_conflict _ _ _ (by
        rw [insertedRow_mem _ _ _ h1]
        exact h)]
      rfl
    · simp only [insert_main_data, List.foldl_cons, List.foldl_nil, if_true]
      rw [show upsert DOCTOR_COLUMNS vals [] =
        [insertedRow DOCTOR_COLUMNS vals] from by simp [upsert]]
      rw [upsert_conflict _ _ _ (by
        rw [insertedRow_mem _ _ _ h2]
        exact h)]
      rfl

/-- C1 witness: the amended theorem applied to the concrete establishment
rows of the counterexample. -/
theorem c1_upsert_amended_witness :
    (estRowV1 "practo_uuid" == estRowV2 "practo_uuid") = true ∧
    (c1EstUpsertProp estRowV1 estRowV2 ∧ c1DocUpsertProp estRowV1 estRowV2) ∧
    ((insert_main_data ESTABLISHMENT_COLUMNS (fun _ => true) []
        [estRowV1, estRowV2]).table).length = 1 :=
  ⟨by decide, c1_upsert_amended.1 estRowV1 estRowV2 (by decide),
    (c1_upsert_amended.2 estRowV1 estRowV2 (by decide)).1⟩

/-- C2 counterexample: after three straight HTTP 500 responses the terminal
`RequestError` carries the URL but `status_code = None`, even though the last
status (500) was available — refuting "carrying … the last HTTP status
code". -/
theorem c2_counterexample :
    make_request (fun _ => 500) "https://www.practo.com/x" 3 =
      (.error { message := "Request failed after 3 attempts"
                status_code := none
                url := some "https://www.practo.com/x" }, 3) ∧
    (none : Option Nat) ≠ some 500 :=
  ⟨rfl, by decide⟩

/-- C2 amended: three straight 500s give exactly 3 attempts and a terminal
`RequestError` carrying the URL but no status code; a 404 on the first
attempt gives exactly 1 attempt and an immediate `RequestError` carrying the
URL and status 404. -/
theorem c2_retry_amended :
    (∀ (url : String) (statuses : Nat → Nat),
      (∀ i, i < 3 → statuses i = 500) →
      make_request statuses url 3 =
        (.error { message := "Request failed after 3 attempts"
                  status_code := none, url := some url }, 3)) ∧
    (∀ (url : String) (statuses : Nat → Nat),
      statuses 0 = 404 →
      make_request statuses url 3 =
        (.error { message := "HTTP error: 404"
                  status_code := some 404, url := some url }, 1)) := by
  constructor
  · intro url statuses h
    have h0 := h 0 (by norm_num)
    have h1 := h 1 (by norm_num)
    have h2 := h 2 (by norm_num)
    simp only [make_request, make_request_loop, h0, h1, h2]
    norm_num
    rfl
  · intro url statuses h
    simp only [make_request, make_request_loop, h]
    norm_num
    rfl

/-- C2 witness: the amended theorem applied to constant status functions. -/
theorem c2_retry_amended_witness :
    (∀ i, i < 3 → (fun _ => 500 : Nat → Nat) i = 500) ∧
    make_request (fun _ => 500) "https://www.practo.com/a" 3 =
      (.error { message := "Request failed after 3 attempts"
                status_code := none
                url := some "https://www.practo.com/a" }, 3) ∧
    ((fun _ => 404 : Nat → Nat) 0 = 404) ∧
    make_request (fun _ => 404) "https://www.practo.com/a" 3 =
      (.error { message := "HTTP error: 404"
                status_code := some 404
                url := some "https://www.practo.com/a" }, 1) :=
  ⟨fun _ _ => rfl,
    c2_retry_amended.1 "https://www.practo.com/a" (fun _ => 500) (fun _ _ => rfl),
    rfl,
    c2_retry_amended.2 "https://www.practo.com/a" (fun _ => 404) rfl⟩

/-- C3: a zero extracted count skips the URL (no pages processed); a positive
count yields exactly `count / 10 + 1` pages, walked as page numbers 1 through
that total; in particular 9, 10 and 25 results give 1, 2 and 3 pages. -/
theorem c3_page_count :
    pages_processed 0 = [] ∧
    (∀ count : Nat, 0 < count →
      pages_processed count = List.range' 1 (count / 10 + 1) ∧
      (pages_processed count).length = count / 10 + 1) ∧
    (pages_processed 9).length = 1 ∧
    (pages_processed 10).length = 2 ∧
    (pages_processed 25).length = 3 := by
  refine ⟨rfl, ?_, by decide, by decide, by decide⟩
  intro count hc
  have hne : count ≠ 0 := Nat.pos_iff_ne_zero.mp hc
  constructor
  · simp [pages_processed, total_pages, hne]
  · simp [pages_processed, total_pages, hne, List.length_range']

/-- C3 witness: the page-count theorem applied at count 25. -/
theorem c3_page_count_witness :
    0 < 25 ∧
    (pages_processed 25 = List.range' 1 (25 / 10 + 1) ∧
      (pages_processed 25).length = 25 / 10 + 1) :=
  ⟨by decide, c3_page_count.2.1 25 (by decide)⟩

/-- C5: `clean_numeric` sends the empty string and `None` to null, the
all-digit string "12" to the integer 12, "12.5" through the float parse to
the exact value 12.5, and the unparsable "abc" to null. -/
theorem c5_clean_numeric :
    clean_numeric (.vstr "") = .nnull ∧
    clean_numeric .vnone = .nnull ∧
    clean_numeric (.vstr "12") = .nint 12 ∧
    clean_numeric (.vstr "12.5") = .nfloat (mkRat 25 2) ∧
    (mkRat 25 2 : ℚ) = 25 / 2 ∧
    clean_numeric (.vstr "abc") = .nnull := by
  refine ⟨rfl, rfl, by decide, by decide, ?_, by decide⟩
  rw [Rat.mkRat_eq_div]
  norm_num

/-- C6: both relation extractors emit exactly one item per (relation, timing)
pair — the batch is the ordered cross product, its size the sum of the
timing counts, and every item carries its relation's `fees[0]` pair and its
own timing's begin/end/weekday fields. -/
theorem c6_relation_expansion :
    ∀ (doctor_id establishment_id : String) (dresp : DocResponse)
      (eresp : EstResponse) (beds_text ambulances_text : Option String),
      (∀ v ∈ docRelationsOf dresp, v.fees ≠ some []) →
      (∀ res ∈ estResultsOf eresp, (res.relation.getD {}).fees ≠ some []) →
      relationExpansionProp doctor_id establishment_id dresp eresp
        beds_text ambulances_text := by
  intro did eid dresp eresp bt ambt hd he
  refine ⟨⟨_, parse_doc_ok did dresp hd, rfl, ?_⟩,
    ⟨_, parse_est_ok eid eresp bt ambt he, rfl, ?_⟩,
    fun v t => ⟨rfl, rfl, rfl, rfl⟩, fun v t => ⟨rfl, rfl, rfl, rfl⟩⟩
  · rw [List.length_flatMap]
    simp [Function.comp_def, List.length_map]
  · rw [List.length_flatMap]
    simp [Function.comp_def, List.length_map]

/-- C6 witness: the expansion theorem applied to a profile with one relation,
one fee entry and three timing windows. -/
theorem c6_relation_expansion_witness :
    (∀ v ∈ docRelationsOf wDocResponse, v.fees ≠ some []) ∧
    (∀ res ∈ estResultsOf wEstResponse, (res.relation.getD {}).fees ≠ some []) ∧
    relationExpansionProp "d-1" "e-1" wDocResponse wEstResponse
      (some "Beds - 25") (some "Ambulances - 2") :=
  ⟨by decide, by decide,
    c6_relation_expansion "d-1" "e-1" wDocResponse wEstResponse
      (some "Beds - 25") (some "Ambulances - 2") (by decide) (by decide)⟩

/-- C7 counterexample: the establishment-side name split does not strip, so
the one-token name "A" yields first name "A " (trailing space), not "A" —
visible on the edge emitted by the extractor. -/
theorem c7_counterexample :
    relationNameSplit "A" = ("A ", "") ∧
    "A " ≠ "A" ∧
    ((parse_establishment_doctor_relation "e-1" wEstResponseBlank none none).map
        (fun out => out.1.map (fun e => e.doctor_info.map (fun d => d.first_name)))) =
      .ok [some "A "] :=
  ⟨by decide, by decide, rfl⟩

/-- C7 amended: both normalizers split on the space character, join the
first two tokens and the remainder, padding with empty tokens; the doctor
normalizer strips the joined parts ("A" gives first "A"), while the
establishment relation normalizer does not ("A" gives first "A "). -/
theorem c7_name_split_amended :
    doctorNameSplit "A B C D" = ("A B", "C D") ∧
    doctorNameSplit "A" = ("A", "") ∧
    relationNameSplit "A B C D" = ("A B", "C D") ∧
    relationNameSplit "A" = ("A ", "") :=
  ⟨by decide, by decide, by decide, by decide⟩

/-- C8: a blank or absent counterpart `fabric_id` does not drop the relation:
one edge per timing window is still emitted, with the counterpart id equal to
the empty string, on both extractors. -/
theorem c8_blank_identity :
    ∀ (doctor_id establishment_id : String) (dresp : DocResponse)
      (eresp : EstResponse),
      (∀ v ∈ docRelationsOf dresp, v.fees ≠ some []) →
      (∀ res ∈ estResultsOf eresp, (res.relation.getD {}).fees ≠ some []) →
      blankIdProp doctor_id establishment_id dresp eresp := by
  intro did eid dresp eresp hd he
  refine ⟨⟨_, parse_doc_ok did dresp hd, rfl, ?_⟩,
    ⟨_, parse_est_ok eid eresp none none he, rfl, ?_⟩,
    ?_, ?_⟩
  · rw [List.length_flatMap]
    simp [Function.comp_def, List.length_map]
  · rw [List.length_flatMap]
    simp [Function.comp_def, List.length_map]
  · intro v _hv hblank t
    exact hblank
  · intro res _hres hblank t
    exact hblank

/-- C8 witness: the blank-identity theorem applied to profiles whose
relations have no `fabric_id`. -/
theorem c8_blank_identity_witness :
    (∀ v ∈ docRelationsOf wDocResponseBlank, v.fees ≠ some []) ∧
    (∀ res ∈ estResultsOf wEstResponseBlank,
      (res.relation.getD {}).fees ≠ some []) ∧
    blankIdProp "d-1" "e-1" wDocResponseBlank wEstResponseBlank :=
  ⟨by decide, by decide,
    c8_blank_identity "d-1" "e-1" wDocResponseBlank wEstResponseBlank
      (by decide) (by decide)⟩

/-- C9: a present-but-empty fee list together with at least one timing window
makes both extractors raise `IndexError` ("list index out of range"),
aborting the whole profile; an absent `fees` key instead yields edges with
null fee fields, and an empty fee list with no timing windows is harmless. -/
theorem c9_empty_fee_list :
    parse_doctor_establishment_relation "d-1" cDocResponseEmptyFees =
      .error "list index out of range" ∧
    parse_establishment_doctor_relation "e-1" cEstResponseEmptyFees none none =
      .error "list index out of range" ∧
    parse_doctor_establishment_relation "d-1" cDocResponseNoFees =
      .ok ([okDocEdge "d-1" cDocRelationNoFees wTiming1], some 1, 0, 0) ∧
    (okDocEdge "d-1" cDocRelationNoFees wTiming1).relation_info.fees =
      [none, none] ∧
    parse_doctor_establishment_relation "d-1" cDocResponseEmptyFeesNoTimings =
      .ok ([], some 1, 0, 0) :=
  ⟨rfl, rfl, rfl, rfl, rfl⟩

set_option maxRecDepth 8000

/-- C10: the page rewrite is a plain textual replacement of `page=1`: a seed
URL without that substring is fetched unchanged on every iteration, and
every other occurrence of `page=1` in the URL is rewritten as well. -/
theorem c10_page_url_rewrite :
    (∀ (link : String) (page : Nat),
      listOccurs "page=1".data link.data = false → pageUrl link page = link) ∧
    pageUrl "https://www.practo.com/s?page=1&u=page=1" 4 =
      "https://www.practo.com/s?page=4&u=page=4" := by
  constructor
  · intro link page h
    exact pyReplace_of_not_occurs link "page=1" ("page=" ++ toString page) h
  · decide

/-- C10 witness: the rewrite theorem applied to a seed URL that does not
contain `page=1`. -/
theorem c10_page_url_rewrite_witness :
    listOccurs "page=1".data "https://www.practo.com/bangalore/doctors".data =
      false ∧
    pageUrl "https://www.practo.com/bangalore/doctors" 7 =
      "https://www.practo.com/bangalore/doctors" :=
  ⟨by decide,
    c10_page_url_rewrite.1 "https://www.practo.com/bangalore/doctors" 7
      (by decide)⟩

/-- C4: the entity batch commits exactly the records whose statements
succeed (one transaction, per-record isolation), and the relation batch
commits the aggregate-count update plus every item's effective statements;
in particular each completed item's relation insert is committed regardless
of other items' failures. -/
theorem c4_batch_isolation :
    ∀ (columns : List String) (ok : Row → Bool) (t0 : List Row)
      (data : List Row) (rok : RelStmt → Bool)
      (exq : String → String → Bool × Bool) (relation : List RelItem)
      (count : Option Int) (bed_count amb_count : Option String)
      (practo_id key : String) (c : RelStmt),
      countsStmt key count bed_count amb_count practo_id = some c →
      rok c = true →
      c4Conclusion columns ok t0 data rok exq relation count bed_count
        amb_count practo_id key c := by
  intro columns ok t0 data rok exq relation count bed amb pid key c hcs hok
  refine ⟨?_, ?_, ?_⟩
  · unfold insert_main_data
    rw [insert_main_data_foldl]
    simp
  · simp [insert_relation_data, hcs, hok]
  · intro v hv hs
    exact List.mem_cons_of_mem c
      (List.mem_flatMap.mpr ⟨v, hv, processItem_mem rok exq v hs⟩)

/-- C4 witness: the isolation theorem applied to a concrete doctor batch and
relation batch with all statements succeeding. -/
theorem c4_batch_isolation_witness :
    countsStmt "doctor" (some 2) none none "d-1" =
      some (.updateDoctorCount (some 2) "d-1") ∧
    (fun _ => true : RelStmt → Bool) (.updateDoctorCount (some 2) "d-1") = true ∧
    c4Conclusion DOCTOR_COLUMNS (fun _ => true) [] [estRowV1] (fun _ => true)
      (fun _ _ => (true, true)) [wRelItem] (some 2) none none "d-1" "doctor"
      (.updateDoctorCount (some 2) "d-1") :=
  ⟨rfl, rfl,
    c4_batch_isolation DOCTOR_COLUMNS (fun _ => true) [] [estRowV1]
      (fun _ => true) (fun _ _ => (true, true)) [wRelItem] (some 2) none none
      "d-1" "doctor" (.updateDoctorCount (some 2) "d-1") rfl rfl⟩
